import Mathlib

/-!
Shallow embedding of `src/p1.py`, a Streamlit meta-search dashboard over four
legal-document sources (Indian Kanoon, AustLII, CanLII, Justia), together with
theorems settling the specification claims.

Modelling conventions:
* Python result dicts `{"title": ..., "link": ..., "details": ...}` become the
  structure `ResultRec`; a missing/absent `details` key is modelled as `""`
  (both are falsy under `res.get("details")`).
* The network and the browser are modelled as explicit environments:
  `HttpResult` for `requests.get` outcomes (either a raised
  `RequestException` or a response with a status code and a parsed document),
  `SeleniumOutcome` for browser-automation outcomes (driver creation fails,
  a later automation step raises, or success with a parsed page source).
* Parsed HTML documents are modelled as lists of the node shapes each parser
  inspects (`IKDiv`, `AustliiAnchor`, `CanliiAnchor`, `JustiaAnchor`).
* Each fetch routine returns its result together with a trace of observable
  effects (`Effect`): HTTP GETs issued, driver creation/quit, and
  `st.error` messages displayed.  `fetch_indian_kanoon_results` returns
  `Except String _` because the Python function has no exception handler:
  a raised `requests` exception propagates out of it.
* Streamlit session state becomes the structure `AppState`; the per-page
  result-count dicts `ik_counts` / `justia_counts` become association lists
  (`CountMap`), `Option` distinguishing a key absent from session state.
* Python `int` page counters are modelled as `Int` (no truncation), and
  Python `range(lo, hi)` as `pyRange`.
-/

/-- A result record: Python dict with keys `title`, `link`, `details`. -/
structure ResultRec where
  title : String
  link : String
  details : String
deriving DecidableEq, Repr

/-- Python `str.startswith`: the first string starts with the second. -/
def strStartsWith (s pre : String) : Bool :=
  List.isPrefixOf pre.data s.data

/-- Occurrence of `sub` as a contiguous sublist of `s`. -/
def listContainsSub : List Char → List Char → Bool
  | _, [] => true
  | [], _ :: _ => false
  | a :: as, b :: bs => List.isPrefixOf (b :: bs) (a :: as) || listContainsSub as (b :: bs)

/-- Python `sub in s` substring containment test. -/
def strContains (s sub : String) : Bool :=
  listContainsSub s.data sub.data

/-- Concatenation of a list of strings (string-building by `+=` in a loop). -/
def strConcat (l : List String) : String :=
  l.foldr (fun a b => a ++ b) ""

/-- Python `range(lo, hi)` over `Int`. -/
def pyRange (lo hi : Int) : List Int :=
  (List.range (hi - lo).toNat).map (fun k => lo + (k : Int))

/-- The per-page result-count dicts (`ik_counts`, `justia_counts`): page ↦ count. -/
abbrev CountMap := List (Int × Nat)

/-- Python `d.get(p, 0)` on a `CountMap`. -/
def dictGet (m : CountMap) (p : Int) : Nat :=
  match m.find? (fun e => e.fst == p) with
  | some e => e.snd
  | none => 0

/-- Python `d[p] = v` on a `CountMap` (overwrite or insert). -/
def dictSet (m : CountMap) (p : Int) (v : Nat) : CountMap :=
  (p, v) :: m.filter (fun e => !(e.fst == p))

/-! ## Formatting functions (`format_results`, `format_indian_kanoon_results`,
`format_justia_results`, p1.py lines 179-228) -/

/-- One formatted entry of `format_results` / `format_indian_kanoon_results`:
`**{i}. {title}**`, the link line, an optional details line, blank line. -/
def formatEntryDetailed (i : Nat) (res : ResultRec) : String :=
  "**" ++ toString i ++ ". " ++ res.title ++ "**\n- Link: " ++ res.link ++ "\n"
    ++ (if res.details ≠ "" then "- Details: " ++ res.details ++ "\n" else "")
    ++ "\n"

/-- The enumeration loop `for i, res in enumerate(results, start)` with
detailed entries. -/
def formatEntriesDetailed : Nat → List ResultRec → String
  | _, [] => ""
  | i, r :: rs => formatEntryDetailed i r ++ formatEntriesDetailed (i + 1) rs

/-- One formatted entry of `format_justia_results` (no details line). -/
def formatEntryPlain (i : Nat) (res : ResultRec) : String :=
  "**" ++ toString i ++ ". " ++ res.title ++ "**\n- Link: " ++ res.link ++ "\n\n"

/-- The enumeration loop of `format_justia_results`. -/
def formatEntriesPlain : Nat → List ResultRec → String
  | _, [] => ""
  | i, r :: rs => formatEntryPlain i r ++ formatEntriesPlain (i + 1) rs

/-- `format_results(results, source_name)`: generic formatting, numbering
restarts at 1 (p1.py lines 179-192). -/
def format_results (results : List ResultRec) (source_name : String) : String :=
  let header := "### " ++ source_name ++ " Results:\n\n"
  if results = [] then header ++ "No results found.\n"
  else header ++ formatEntriesDetailed 1 results

/-- `format_indian_kanoon_results(results, current_page)` (p1.py lines
194-212): continuous numbering via the `ik_counts` dict in session state.
Takes and returns the `ik_counts` session entry (`none` = key absent). -/
def format_indian_kanoon_results (results : List ResultRec) (current_page : Int)
    (ik_counts : Option CountMap) : String × Option CountMap :=
  if results = [] then ("No results found.", ik_counts)
  else
    let m0 := ik_counts.getD []
    let m1 := dictSet m0 current_page results.length
    let cumulative := ((pyRange 1 current_page).map (fun p => dictGet m1 p)).sum
    let start_num := cumulative + 1
    ("### Indian Kanoon Results (Page " ++ toString current_page ++ ")\n\n"
       ++ formatEntriesDetailed start_num results,
     some m1)

/-- `format_justia_results(results, current_page)` (p1.py lines 214-228). -/
def format_justia_results (results : List ResultRec) (current_page : Int)
    (justia_counts : Option CountMap) : String × Option CountMap :=
  if results = [] then ("No results found.", justia_counts)
  else
    let m0 := justia_counts.getD []
    let m1 := dictSet m0 current_page results.length
    let cumulative := ((pyRange 1 current_page).map (fun p => dictGet m1 p)).sum
    let start_num := cumulative + 1
    ("### Justia Results (Page " ++ toString current_page ++ ")\n\n"
       ++ formatEntriesPlain start_num results,
     some m1)

/-! ## Network / browser environments and effect traces -/

/-- Observable effects of a fetch routine: HTTP GETs issued by `requests.get`,
webdriver creation and `driver.quit()`, and `st.error` messages displayed. -/
inductive Effect where
  | httpGet (url : String)
  | createDriver
  | driverQuit
  | stError (msg : String)
deriving DecidableEq, Repr

/-- Outcome of a `requests.get` call: either the call raises a
`RequestException`, or it returns a response with a status code whose body
parses to a document of type `α`. -/
inductive HttpResult (α : Type) where
  | raisesExn (msg : String)
  | resp (status : Nat) (doc : α)
deriving DecidableEq, Repr

/-- Outcome of a browser-automation session inside a `try` block:
`webdriver.Edge(...)` itself raises (no driver exists), a later automation
step raises (driver exists, `html` stays empty), or the flow completes and
`driver.page_source` parses to a document of type `α`. -/
inductive SeleniumOutcome (α : Type) where
  | createFails (msg : String)
  | stepFails (msg : String)
  | success (doc : α)
deriving DecidableEq, Repr

/-! ## fetch_indian_kanoon_results (p1.py lines 17-46) -/

/-- A `div.result_title` node as inspected by the Indian Kanoon parser:
an optional anchor with href (title text, href), and the text of the next
sibling div, if any. -/
structure IKDiv where
  anchor : Option (String × String)
  sibling : Option String
deriving DecidableEq, Repr

/-- URL construction of `fetch_indian_kanoon_results` (p1.py lines 23-27).
`quote_plus` keyword encoding is abstracted: the argument stands for the
already-encoded keyword. -/
def indianKanoonSearchUrl (keyword : String) (page : Int) : String :=
  if page = 1 then "https://indiankanoon.org/search/?formInput=" ++ keyword
  else "https://indiankanoon.org/search/?formInput=" ++ keyword
         ++ "&pagenum=" ++ toString (page - 1)

/-- Extraction of one result from a `div.result_title` (p1.py lines 36-45):
skipped when there is no anchor; relative hrefs are made absolute. -/
def ikExtract (d : IKDiv) : Option ResultRec :=
  match d.anchor with
  | none => none
  | some a =>
      let link :=
        if strStartsWith a.snd "http" then a.snd
        else "https://indiankanoon.org" ++ a.snd
      some { title := a.fst, link := link, details := d.sibling.getD "" }

/-- `fetch_indian_kanoon_results(keyword, page)` (p1.py lines 17-46).
The Python function has NO `try/except`: a raised `requests` exception
propagates to the caller, hence the `Except` result.  A non-200 status
returns `[]`. -/
def fetch_indian_kanoon_results (keyword : String) (page : Int)
    (net : HttpResult (List IKDiv)) : Except String (List ResultRec) × List Effect :=
  let url := indianKanoonSearchUrl keyword page
  match net with
  | HttpResult.raisesExn msg => (Except.error msg, [Effect.httpGet url])
  | HttpResult.resp status doc =>
      if status ≠ 200 then (Except.ok [], [Effect.httpGet url])
      else (Except.ok (doc.filterMap ikExtract), [Effect.httpGet url])

/-! ## fetch_austlii_search_results (p1.py lines 48-94) -/

/-- An `<a href=...>` node as inspected by the AustLII parser: its href, its
stripped text, the stripped texts of its following siblings, and the text of
the following `p.meta` element, if any. -/
structure AustliiAnchor where
  href : String
  text : String
  siblingTexts : List String
  metaText : Option String
deriving DecidableEq, Repr

/-- URL construction of `fetch_austlii_search_results` (p1.py line 50). -/
def austliiSearchUrl (keyword : String) : String :=
  "https://www.austlii.edu.au/cgi-bin/sinosrch.cgi?method=auto&query=" ++ keyword

/-- The placeholder record returned by AustLII on a connection error
(p1.py lines 58-62). -/
def austliiErrorPlaceholder : ResultRec :=
  { title := "AustLII", link := "",
    details := "AustLII results are currently unavailable due to a connection error." }

/-- The placeholder record appended when no AustLII result parses
(p1.py lines 88-93). -/
def austliiEmptyPlaceholder : ResultRec :=
  { title := "AustLII", link := "", details := "No results found on AustLII." }

/-- Extraction of one AustLII result (p1.py lines 66-87): anchors whose href
does not contain `/cgi-bin/viewdoc/` are skipped; empty titles fall back to
the first non-empty following-sibling text. -/
def austliiExtract (a : AustliiAnchor) : Option ResultRec :=
  if !(strContains a.href "/cgi-bin/viewdoc/") then none
  else
    let link := if strStartsWith a.href "http" then a.href
                else "https://www.austlii.edu.au" ++ a.href
    let title := if a.text ≠ "" then a.text
                 else ((a.siblingTexts.find? (fun t => t ≠ "")).getD "")
    some { title := title, link := link, details := (a.metaText.getD "") }

/-- `fetch_austlii_search_results(keyword)` (p1.py lines 48-94).  The whole
request is wrapped in `try/except RequestException`; `raise_for_status`
turns a 4xx/5xx response into a caught exception.  The function never
raises: a failure yields the error placeholder after an `st.error` call. -/
def fetch_austlii_search_results (keyword : String)
    (net : HttpResult (List AustliiAnchor)) : List ResultRec × List Effect :=
  let url := austliiSearchUrl keyword
  match net with
  | HttpResult.raisesExn msg =>
      ([austliiErrorPlaceholder],
       [Effect.httpGet url, Effect.stError ("Error fetching AustLII results: " ++ msg)])
  | HttpResult.resp status doc =>
      if 400 ≤ status then
        ([austliiErrorPlaceholder],
         [Effect.httpGet url,
          Effect.stError ("Error fetching AustLII results: HTTP " ++ toString status)])
      else
        let parsed := doc.filterMap austliiExtract
        (if parsed = [] then [austliiEmptyPlaceholder] else parsed,
         [Effect.httpGet url])

/-! ## fetch_canlii_search_results (p1.py lines 96-141) -/

/-- An `a[data-result-uuid]` node as inspected by the CanLII parser. -/
structure CanliiAnchor where
  text : String
  href : String
deriving DecidableEq, Repr

/-- Extraction of one CanLII result (p1.py lines 135-140); the record has no
`details` key (modelled as `""`). -/
def canliiExtract (a : CanliiAnchor) : ResultRec :=
  { title := a.text,
    link := if strStartsWith a.href "http" then a.href
            else "https://www.canlii.org" ++ a.href,
    details := "" }

/-- `fetch_canlii_search_results(keyword)` (p1.py lines 96-141).
`try/except Exception/finally`: any automation failure is caught, an
`st.error` is shown, and the `finally` block quits the driver whenever one
was created; `html` stays `""` on failure, so parsing yields `[]`. -/
def fetch_canlii_search_results (_keyword : String)
    (env : SeleniumOutcome (List CanliiAnchor)) : List ResultRec × List Effect :=
  match env with
  | SeleniumOutcome.createFails msg =>
      ([], [Effect.stError ("Error fetching CanLII results: " ++ msg)])
  | SeleniumOutcome.stepFails msg =>
      ([], [Effect.createDriver,
            Effect.stError ("Error fetching CanLII results: " ++ msg),
            Effect.driverQuit])
  | SeleniumOutcome.success doc =>
      (doc.map canliiExtract, [Effect.createDriver, Effect.driverQuit])

/-! ## fetch_justia_search_results (p1.py lines 143-173) -/

/-- An `a.gs-title` node inside a `div.gsc-webResult` as inspected by the
Justia parser; the href attribute may be absent (`result.get("href", "")`). -/
structure JustiaAnchor where
  text : String
  href : Option String
deriving DecidableEq, Repr

/-- URL construction of `fetch_justia_search_results` (p1.py lines 151-154). -/
def justiaSearchUrl (keyword : String) (page : Int) : String :=
  "https://www.justia.com/search?q=" ++ keyword
    ++ "&cx=012624009653992735869%3Acyxxdwappru&start=" ++ toString ((page - 1) * 10)

/-- Extraction of one Justia result (p1.py lines 169-172): the href is taken
verbatim (no absolutization), defaulting to `""`. -/
def justiaExtract (a : JustiaAnchor) : ResultRec :=
  { title := a.text, link := a.href.getD "", details := "" }

/-- `fetch_justia_search_results(keyword, page)` (p1.py lines 143-173).
Same `try/except/finally` discipline as CanLII; the browser navigates to a
parameterized search URL. -/
def fetch_justia_search_results (_keyword : String) (_page : Int)
    (env : SeleniumOutcome (List JustiaAnchor)) : List ResultRec × List Effect :=
  match env with
  | SeleniumOutcome.createFails msg =>
      ([], [Effect.stError ("Error fetching Justia results: " ++ msg)])
  | SeleniumOutcome.stepFails msg =>
      ([], [Effect.createDriver,
            Effect.stError ("Error fetching Justia results: " ++ msg),
            Effect.driverQuit])
  | SeleniumOutcome.success doc =>
      (doc.map justiaExtract, [Effect.createDriver, Effect.driverQuit])

/-! ## Session state and the main dashboard (p1.py lines 234-327) -/

/-- The Streamlit session state used by `main` (p1.py lines 244-252 and the
keys assigned in the search handler).  Result lists default to `[]` and the
count dicts to `none` (key absent) before they are first assigned. -/
structure AppState where
  keyword : String
  ik_page : Int
  justia_page : Int
  results_fetched : Bool
  ik_results : List ResultRec
  austlii_results : List ResultRec
  canlii_results : List ResultRec
  justia_results : List ResultRec
  ik_counts : Option CountMap
  justia_counts : Option CountMap
deriving DecidableEq, Repr

/-- Session state right after the initialization block (p1.py lines 244-252). -/
def initialState : AppState :=
  { keyword := "", ik_page := 1, justia_page := 1, results_fetched := false,
    ik_results := [], austlii_results := [], canlii_results := [],
    justia_results := [], ik_counts := none, justia_counts := none }

/-- One environment per source for a round of fetches. -/
structure FetchEnv where
  ik : HttpResult (List IKDiv)
  al : HttpResult (List AustliiAnchor)
  cl : SeleniumOutcome (List CanliiAnchor)
  ju : SeleniumOutcome (List JustiaAnchor)

/-- The tail of the search handler after the Indian Kanoon step
(p1.py lines 267-287): AustLII, CanLII, Justia fetches (or `[]` when the
checkbox is off), then `results_fetched = True` and both count dicts reset
to `{}`.  None of these fetches can raise. -/
def searchRest (al cl ju : Bool) (kw : String) (env : FetchEnv)
    (s : AppState) : AppState × Option String :=
  let s1 := { s with austlii_results :=
                if al then (fetch_austlii_search_results kw env.al).fst else [] }
  let s2 := { s1 with canlii_results :=
                if cl then (fetch_canlii_search_results kw env.cl).fst else [] }
  let s3 := if ju then
              { s2 with justia_page := 1,
                        justia_results := (fetch_justia_search_results kw 1 env.ju).fst }
            else { s2 with justia_results := [] }
  ({ s3 with results_fetched := true, ik_counts := some [], justia_counts := some [] },
   none)

/-- The `Search` button handler (p1.py lines 258-287).  The second component
is `some msg` when an exception escaped the handler (only possible from
`fetch_indian_kanoon_results`, which has no handler); in that case the
session-state assignments made before the raise persist and the rest of the
handler does not run. -/
def searchAction (ik al cl ju : Bool) (kw : String) (env : FetchEnv)
    (s : AppState) : AppState × Option String :=
  let s0 := { s with keyword := kw }
  if ik then
    let s1 := { s0 with ik_page := 1 }
    match fetch_indian_kanoon_results kw 1 env.ik with
    | (Except.error msg, _) => (s1, some msg)
    | (Except.ok rs, _) => searchRest al cl ju kw env { s1 with ik_results := rs }
  else
    searchRest al cl ju kw env { s0 with ik_results := [] }

/-- The result-display section (p1.py lines 290-327) with no pagination
button pressed: the list of markdown blocks written, in order, and the
session state as updated by the formatting calls.  A disabled checkbox
skips the whole section for that source. -/
def renderResults (ik al cl ju : Bool) (s : AppState) : List String × AppState :=
  if !s.results_fetched then ([], s)
  else
    let p1 :=
      if ik then
        let fr := format_indian_kanoon_results s.ik_results s.ik_page s.ik_counts
        ([fr.fst, "---"], { s with ik_counts := fr.snd })
      else ([], s)
    let p2 :=
      if al then (p1.fst ++ [format_results p1.snd.austlii_results "AustLII", "---"], p1.snd)
      else p1
    let p3 :=
      if cl then (p2.fst ++ [format_results p2.snd.canlii_results "CanLII", "---"], p2.snd)
      else p2
    if ju then
      let fr := format_justia_results p3.snd.justia_results p3.snd.justia_page p3.snd.justia_counts
      (p3.fst ++ ["### Justia Results", fr.fst], { p3.snd with justia_counts := fr.snd })
    else p3

/-- User-interaction events that mutate session state: a search (with the
checkbox settings and that round's fetch outcomes) and the four pagination
buttons (with the fetch outcome of the page they load). -/
inductive UiEvent where
  | search (ik al cl ju : Bool) (kw : String) (env : FetchEnv)
  | prevIK (net : HttpResult (List IKDiv))
  | nextIK (net : HttpResult (List IKDiv))
  | prevJustia (env : SeleniumOutcome (List JustiaAnchor))
  | nextJustia (env : SeleniumOutcome (List JustiaAnchor))

/-- One step of the session-state machine (p1.py lines 258-287 and 295-327).
`Previous` decrements only under the guard `page > 1`; `Next` increments,
then refetches and reformats (which records the page count).  If the Indian
Kanoon fetch raises inside a button handler, the page counter was already
updated but the results assignment did not happen. -/
def step (s : AppState) (e : UiEvent) : AppState :=
  match e with
  | UiEvent.search ik al cl ju kw env => (searchAction ik al cl ju kw env s).fst
  | UiEvent.prevIK net =>
      if 1 < s.ik_page then
        let s1 := { s with ik_page := s.ik_page - 1 }
        match fetch_indian_kanoon_results s1.keyword s1.ik_page net with
        | (Except.error _, _) => s1
        | (Except.ok rs, _) =>
            let s2 := { s1 with ik_results := rs }
            { s2 with ik_counts :=
                (format_indian_kanoon_results s2.ik_results s2.ik_page s2.ik_counts).snd }
      else s
  | UiEvent.nextIK net =>
      let s1 := { s with ik_page := s.ik_page + 1 }
      match fetch_indian_kanoon_results s1.keyword s1.ik_page net with
      | (Except.error _, _) => s1
      | (Except.ok rs, _) =>
          let s2 := { s1 with ik_results := rs }
          { s2 with ik_counts :=
              (format_indian_kanoon_results s2.ik_results s2.ik_page s2.ik_counts).snd }
  | UiEvent.prevJustia env =>
      if 1 < s.justia_page then
        let s1 := { s with justia_page := s.justia_page - 1 }
        let s2 := { s1 with justia_results :=
                      (fetch_justia_search_results s1.keyword s1.justia_page env).fst }
        { s2 with justia_counts :=
            (format_justia_results s2.justia_results s2.justia_page s2.justia_counts).snd }
      else s
  | UiEvent.nextJustia env =>
      let s1 := { s with justia_page := s.justia_page + 1 }
      let s2 := { s1 with justia_results :=
                    (fetch_justia_search_results s1.keyword s1.justia_page env).fst }
      { s2 with justia_counts :=
          (format_justia_results s2.justia_results s2.justia_page s2.justia_counts).snd }

/-! ## Concrete sample inputs and trace predicates used by the theorems -/

/-- A 9-item page of results (the spec's "contract law" page-1 example). -/
def ikPage1Sample : List ResultRec :=
  List.replicate 9 { title := "Case", link := "https://indiankanoon.org/doc/1/", details := "" }

/-- An 8-item page of results (the spec's page-2 example, numbered 10-17). -/
def ikPage2Sample : List ResultRec :=
  List.replicate 8 { title := "Case", link := "https://indiankanoon.org/doc/2/", details := "" }

/-- An AustLII response document with one valid result anchor. -/
def austliiSampleDoc : List AustliiAnchor :=
  [{ href := "/cgi-bin/viewdoc/au/cases/cth/HCA/2020/1.html",
     text := "Case v Case", siblingTexts := [], metaText := none }]

/-- A fetch environment where the Indian Kanoon `requests.get` raises while
every other source would succeed (AustLII with one result). -/
def envAbort : FetchEnv :=
  { ik := HttpResult.raisesExn "connection refused",
    al := HttpResult.resp 200 austliiSampleDoc,
    cl := SeleniumOutcome.success [],
    ju := SeleniumOutcome.success [] }

/-- Does a fetch trace contain a `requests.get` HTTP GET? -/
def usesHttpGet (tr : List Effect) : Bool :=
  tr.any (fun e => match e with | Effect.httpGet _ => true | _ => false)

/-- Does a fetch trace contain a webdriver session creation? -/
def usesBrowserDriver (tr : List Effect) : Bool :=
  tr.any (fun e => match e with | Effect.createDriver => true | _ => false)

/-- The effect traces of the four source fetches on success environments, in
source order: Indian Kanoon, AustLII, CanLII, Justia. -/
def sourceSuccessTraces (kw : String) (page : Int) (d1 : List IKDiv)
    (d2 : List AustliiAnchor) (d3 : List CanliiAnchor)
    (d4 : List JustiaAnchor) : List (List Effect) :=
  [(fetch_indian_kanoon_results kw page (HttpResult.resp 200 d1)).snd,
   (fetch_austlii_search_results kw (HttpResult.resp 200 d2)).snd,
   (fetch_canlii_search_results kw (SeleniumOutcome.success d3)).snd,
   (fetch_justia_search_results kw page (SeleniumOutcome.success d4)).snd]

/-- A fetch environment in which every source would respond with zero hits. -/
def envQuiet : FetchEnv :=
  { ik := HttpResult.resp 200 [], al := HttpResult.resp 200 [],
    cl := SeleniumOutcome.success [], ju := SeleniumOutcome.success [] }

/-- Both pagination counters are at least 1. -/
def pagesInv (s : AppState) : Prop :=
  1 ≤ s.ik_page ∧ 1 ≤ s.justia_page

/-! ## Helper lemmas -/

lemma dictGet_head (p : Int) (v : Nat) (m : CountMap) : dictGet ((p, v) :: m) p = v := by
  unfold dictGet
  rw [List.find?_cons_of_pos _ (by simp)]

lemma dictGet_cons_of_ne (q : Int × Nat) (m : CountMap) (p : Int)
    (h : (q.fst == p) = false) : dictGet (q :: m) p = dictGet m p := by
  unfold dictGet
  rw [List.find?_cons_of_neg _ (by simp [h])]

lemma ik_page2_start (m : CountMap) (n1 n2 : Nat) :
    ((pyRange 1 2).map (fun p => dictGet (dictSet (dictSet m 1 n1) 2 n2) p)).sum = n1 := by
  rw [show pyRange 1 2 = [(1 : Int)] from by decide]
  simp only [List.map_cons, List.map_nil, List.sum_cons, List.sum_nil, Nat.add_zero]
  simp only [dictSet]
  rw [List.filter_cons_of_pos (by simp)]
  rw [dictGet_cons_of_ne _ _ _ (by simp), dictGet_head]

lemma page1_cumulative (g : Int → Nat) : ((pyRange 1 1).map g).sum = 0 := by
  rw [show pyRange 1 1 = ([] : List Int) from by decide]
  simp

lemma formatEntriesDetailed_entry (rs : List ResultRec) :
    ∀ (start k : Nat) (hk : k < rs.length), ∃ pre post,
      formatEntriesDetailed start rs
        = pre ++ formatEntryDetailed (start + k) (rs.get ⟨k, hk⟩) ++ post := by
  induction rs with
  | nil => intro start k hk; simp at hk
  | cons r rs ih =>
      intro start k hk
      cases k with
      | zero => exact ⟨"", formatEntriesDetailed (start + 1) rs, rfl⟩
      | succ k =>
          obtain ⟨pre, post, hp⟩ := ih (start + 1) k (by simpa using hk)
          refine ⟨formatEntryDetailed start r ++ pre, post, ?_⟩
          show formatEntryDetailed start r ++ formatEntriesDetailed (start + 1) rs = _
          rw [hp, show start + 1 + k = start + (k + 1) from by omega]
          simp [String.append_assoc, List.get]

lemma formatEntriesPlain_entry (rs : List ResultRec) :
    ∀ (start k : Nat) (hk : k < rs.length), ∃ pre post,
      formatEntriesPlain start rs
        = pre ++ formatEntryPlain (start + k) (rs.get ⟨k, hk⟩) ++ post := by
  induction rs with
  | nil => intro start k hk; simp at hk
  | cons r rs ih =>
      intro start k hk
      cases k with
      | zero => exact ⟨"", formatEntriesPlain (start + 1) rs, rfl⟩
      | succ k =>
          obtain ⟨pre, post, hp⟩ := ih (start + 1) k (by simpa using hk)
          refine ⟨formatEntryPlain start r ++ pre, post, ?_⟩
          show formatEntryPlain start r ++ formatEntriesPlain (start + 1) rs = _
          rw [hp, show start + 1 + k = start + (k + 1) from by omega]
          simp [String.append_assoc, List.get]

/-! ## Claim theorems -/

/-- Claim C1: for the Indian Kanoon and Justia formatters, if page 1 returned
`n1 = r1.length` results and page 2 returns `n2 = r2.length` results, then
formatting page 2 after page 1 has been formatted (recording its count)
numbers page 2's entries `n1+1` through `n1+n2`: the page-2 body is the
enumeration starting at `n1+1`, and its `k`-th entry carries number
`n1+1+k`. -/
theorem C1_continuous_numbering (r1 r2 : List ResultRec) (c0 d0 : Option CountMap)
    (h1 : r1 ≠ []) (h2 : r2 ≠ []) :
    ((format_indian_kanoon_results r2 2 (format_indian_kanoon_results r1 1 c0).snd).fst
        = "### Indian Kanoon Results (Page 2)\n\n" ++ formatEntriesDetailed (r1.length + 1) r2
      ∧ ∀ (k : Nat) (hk : k < r2.length), ∃ pre post,
          formatEntriesDetailed (r1.length + 1) r2
            = pre ++ formatEntryDetailed (r1.length + 1 + k) (r2.get ⟨k, hk⟩) ++ post)
  ∧ ((format_justia_results r2 2 (format_justia_results r1 1 d0).snd).fst
        = "### Justia Results (Page 2)\n\n" ++ formatEntriesPlain (r1.length + 1) r2
      ∧ ∀ (k : Nat) (hk : k < r2.length), ∃ pre post,
          formatEntriesPlain (r1.length + 1) r2
            = pre ++ formatEntryPlain (r1.length + 1 + k) (r2.get ⟨k, hk⟩) ++ post) := by
  refine ⟨⟨?_, fun k hk => formatEntriesDetailed_entry r2 (r1.length + 1) k hk⟩,
          ⟨?_, fun k hk => formatEntriesPlain_entry r2 (r1.length + 1) k hk⟩⟩
  · simp only [format_indian_kanoon_results, if_neg h1, if_neg h2, Option.getD_some]
    rw [ik_page2_start]
    congr 1
  · simp only [format_justia_results, if_neg h1, if_neg h2, Option.getD_some]
    rw [ik_page2_start]
    congr 1

/-- Witness for C1 at the spec's example sizes: 9 items on page 1, 8 on
page 2, so page 2 is the enumeration starting at 10 = 9 + 1. -/
theorem C1_continuous_numbering_witness :
    (ikPage1Sample ≠ [] ∧ ikPage2Sample ≠ [])
  ∧ (((format_indian_kanoon_results ikPage2Sample 2
          (format_indian_kanoon_results ikPage1Sample 1 none).snd).fst
        = "### Indian Kanoon Results (Page 2)\n\n"
            ++ formatEntriesDetailed (ikPage1Sample.length + 1) ikPage2Sample
      ∧ ∀ (k : Nat) (hk : k < ikPage2Sample.length), ∃ pre post,
          formatEntriesDetailed (ikPage1Sample.length + 1) ikPage2Sample
            = pre ++ formatEntryDetailed (ikPage1Sample.length + 1 + k)
                       (ikPage2Sample.get ⟨k, hk⟩) ++ post)
    ∧ ((format_justia_results ikPage2Sample 2
          (format_justia_results ikPage1Sample 1 none).snd).fst
        = "### Justia Results (Page 2)\n\n"
            ++ formatEntriesPlain (ikPage1Sample.length + 1) ikPage2Sample
      ∧ ∀ (k : Nat) (hk : k < ikPage2Sample.length), ∃ pre post,
          formatEntriesPlain (ikPage1Sample.length + 1) ikPage2Sample
            = pre ++ formatEntryPlain (ikPage1Sample.length + 1 + k)
                       (ikPage2Sample.get ⟨k, hk⟩) ++ post)) :=
  ⟨⟨by decide, by decide⟩,
   C1_continuous_numbering ikPage1Sample ikPage2Sample none none (by decide) (by decide)⟩

/-- Claim C2: each formatting routine numbers its entries starting at 1 on
page 1: `format_results` always enumerates from 1, and the Indian Kanoon and
Justia formatters enumerate from 1 when `current_page = 1` (the cumulative
sum over `range(1, 1)` is 0), for any prior counts state. -/
theorem C2_page_one_numbering (results : List ResultRec) (src : String)
    (c0 d0 : Option CountMap) (h : results ≠ []) :
    format_results results src
        = "### " ++ src ++ " Results:\n\n" ++ formatEntriesDetailed 1 results
  ∧ (format_indian_kanoon_results results 1 c0).fst
        = "### Indian Kanoon Results (Page 1)\n\n" ++ formatEntriesDetailed 1 results
  ∧ (format_justia_results results 1 d0).fst
        = "### Justia Results (Page 1)\n\n" ++ formatEntriesPlain 1 results := by
  refine ⟨?_, ?_, ?_⟩
  · simp only [format_results, if_neg h]
  · simp only [format_indian_kanoon_results, if_neg h]
    rw [page1_cumulative]
    congr 1
  · simp only [format_justia_results, if_neg h]
    rw [page1_cumulative]
    congr 1

/-- Witness for C2 at a concrete one-element result list. -/
theorem C2_page_one_numbering_witness :
    ([({ title := "T", link := "https://x", details := "d" } : ResultRec)] ≠ [])
  ∧ (format_results [{ title := "T", link := "https://x", details := "d" }] "CanLII"
        = "### " ++ "CanLII" ++ " Results:\n\n"
            ++ formatEntriesDetailed 1 [{ title := "T", link := "https://x", details := "d" }]
    ∧ (format_indian_kanoon_results [{ title := "T", link := "https://x", details := "d" }] 1 none).fst
        = "### Indian Kanoon Results (Page 1)\n\n"
            ++ formatEntriesDetailed 1 [{ title := "T", link := "https://x", details := "d" }]
    ∧ (format_justia_results [{ title := "T", link := "https://x", details := "d" }] 1 none).fst
        = "### Justia Results (Page 1)\n\n"
            ++ formatEntriesPlain 1 [{ title := "T", link := "https://x", details := "d" }]) :=
  ⟨by decide,
   C2_page_one_numbering [{ title := "T", link := "https://x", details := "d" }] "CanLII"
     none none (by decide)⟩

/-- Claim C10: called with an empty result list, the Indian Kanoon and Justia
formatters return exactly the string `"No results found."` with no
source/page header, leave the counts dict untouched (no count is recorded
for that page), and therefore formatting any later page from the resulting
state numbers it exactly as if the empty page had never been formatted. -/
theorem C10_empty_result_list (page p2 : Int) (c d : Option CountMap)
    (r2 : List ResultRec) :
    format_indian_kanoon_results [] page c = ("No results found.", c)
  ∧ format_justia_results [] page d = ("No results found.", d)
  ∧ format_indian_kanoon_results r2 p2 (format_indian_kanoon_results [] page c).snd
      = format_indian_kanoon_results r2 p2 c
  ∧ format_justia_results r2 p2 (format_justia_results [] page d).snd
      = format_justia_results r2 p2 d :=
  ⟨rfl, rfl, rfl, rfl⟩

/-- Claim C9: `fetch_indian_kanoon_results` returns the empty list whenever
the HTTP status is not 200, raising nothing and displaying no error message
(the trace is just the GET), and the outcome is identical to a 200 response
with zero hits. -/
theorem C9_non200_returns_empty (kw : String) (page : Int) (status : Nat)
    (doc : List IKDiv) (h : status ≠ 200) :
    fetch_indian_kanoon_results kw page (HttpResult.resp status doc)
        = (Except.ok [], [Effect.httpGet (indianKanoonSearchUrl kw page)])
  ∧ fetch_indian_kanoon_results kw page (HttpResult.resp status doc)
        = fetch_indian_kanoon_results kw page (HttpResult.resp 200 []) := by
  constructor <;> simp [fetch_indian_kanoon_results, h]

/-- Witness for C9 at a 500 response carrying a parseable result div. -/
theorem C9_non200_returns_empty_witness :
    ((500 : Nat) ≠ 200)
  ∧ (fetch_indian_kanoon_results "contract law" 1
        (HttpResult.resp 500 [{ anchor := some ("T", "/doc/1/"), sibling := none }])
        = (Except.ok [], [Effect.httpGet (indianKanoonSearchUrl "contract law" 1)])
    ∧ fetch_indian_kanoon_results "contract law" 1
        (HttpResult.resp 500 [{ anchor := some ("T", "/doc/1/"), sibling := none }])
        = fetch_indian_kanoon_results "contract law" 1 (HttpResult.resp 200 [])) :=
  ⟨by decide,
   C9_non200_returns_empty "contract law" 1 500
     [{ anchor := some ("T", "/doc/1/"), sibling := none }] (by decide)⟩

/-- Counterexample to C3: a raised network exception in
`fetch_indian_kanoon_results` is NOT caught locally — it propagates
(`Except.error`), the whole search action aborts (`some msg`), and AustLII,
though it would have returned a result, ends up with no stored results. -/
theorem C3_counterexample :
    (fetch_indian_kanoon_results "contract law" 1
        (HttpResult.raisesExn "connection refused")).fst
      = Except.error "connection refused"
  ∧ (searchAction true true true true "contract law" envAbort initialState).snd
      = some "connection refused"
  ∧ ((searchAction true true true true "contract law" envAbort initialState).fst).austlii_results
      = []
  ∧ (fetch_austlii_search_results "contract law" envAbort.al).fst ≠ [] := by
  refine ⟨rfl, rfl, rfl, by decide⟩

/-- Claim C3 (amended): AustLII, CanLII and Justia catch their failures
locally — AustLII degrades to its placeholder record, the browser-driven
sources to `[]` — and Indian Kanoon handles a non-exceptional response
locally; but a raised exception in `fetch_indian_kanoon_results` propagates
(no handler in p1.py lines 28-32) and aborts the search action.  Whenever
the Indian Kanoon call yields a response (any status) or its checkbox is
off, no failure of the other three sources can abort the search. -/
theorem C3_amended_local_failure_handling (kw : String) (page : Int) (msg : String)
    (status : Nat) (dIK : List IKDiv) (al cl ju : Bool) (env : FetchEnv) (s : AppState) :
    (fetch_austlii_search_results kw (HttpResult.raisesExn msg)).fst
        = [austliiErrorPlaceholder]
  ∧ (fetch_canlii_search_results kw (SeleniumOutcome.createFails msg)).fst = []
  ∧ (fetch_canlii_search_results kw (SeleniumOutcome.stepFails msg)).fst = []
  ∧ (fetch_justia_search_results kw page (SeleniumOutcome.createFails msg)).fst = []
  ∧ (fetch_justia_search_results kw page (SeleniumOutcome.stepFails msg)).fst = []
  ∧ (fetch_indian_kanoon_results kw page (HttpResult.raisesExn msg)).fst
        = Except.error msg
  ∧ (searchAction true al cl ju kw { env with ik := HttpResult.resp status dIK } s).snd
        = none
  ∧ (searchAction false al cl ju kw env s).snd = none := by
  refine ⟨rfl, rfl, rfl, rfl, rfl, rfl, ?_, rfl⟩
  by_cases h : status ≠ 200 <;>
    simp [searchAction, fetch_indian_kanoon_results, h, searchRest]

lemma strStartsWith_append_left (base tail pre : String)
    (h : strStartsWith base pre = true) : strStartsWith (base ++ tail) pre = true := by
  unfold strStartsWith at h ⊢
  rw [String.data_append]
  rw [List.isPrefixOf_iff_prefix] at h ⊢
  exact h.trans (List.prefix_append base.data tail.data)

lemma ikExtract_link_http (d : IKDiv) (r : ResultRec) (h : ikExtract d = some r) :
    strStartsWith r.link "http" = true := by
  unfold ikExtract at h
  cases ha : d.anchor with
  | none => rw [ha] at h; exact absurd h (by simp)
  | some a =>
      rw [ha] at h
      simp only [Option.some.injEq] at h
      subst h
      by_cases hs : strStartsWith a.snd "http" = true
      · simp [hs]
      · simp only [Bool.not_eq_true] at hs
        simp only [hs, if_false]
        exact strStartsWith_append_left "https://indiankanoon.org" a.snd "http" (by decide)

lemma canliiExtract_link_http (a : CanliiAnchor) :
    strStartsWith (canliiExtract a).link "http" = true := by
  unfold canliiExtract
  by_cases hs : strStartsWith a.href "http" = true
  · simp [hs]
  · simp only [Bool.not_eq_true] at hs
    simp only [hs, if_false]
    exact strStartsWith_append_left "https://www.canlii.org" a.href "http" (by decide)

/-- Counterexample to C5: the AustLII connection-error placeholder record has
`link = ""`, which is not an absolute URL. -/
theorem C5_counterexample :
    ((fetch_austlii_search_results "x" (HttpResult.raisesExn "timeout")).fst).all
        (fun r => strStartsWith r.link "http") = false := by decide

/-- Claim C5 (amended): every record produced by `fetch_indian_kanoon_results`
and `fetch_canlii_search_results` has a `link` beginning with `"http"`
(relative hrefs are absolutized); the AustLII placeholder records carry an
empty link, and Justia records carry the page href verbatim. -/
theorem C5_amended_absolute_links (kw : String) (page : Int)
    (net : HttpResult (List IKDiv)) (env : SeleniumOutcome (List CanliiAnchor))
    (rs : List ResultRec) (r1 r2 : ResultRec)
    (hok : (fetch_indian_kanoon_results kw page net).fst = Except.ok rs)
    (h1 : r1 ∈ rs) (h2 : r2 ∈ (fetch_canlii_search_results kw env).fst) :
    strStartsWith r1.link "http" = true ∧ strStartsWith r2.link "http" = true := by
  constructor
  · cases net with
    | raisesExn msg => exact absurd hok (by simp [fetch_indian_kanoon_results])
    | resp status doc =>
        by_cases hst : status ≠ 200
        · simp [fetch_indian_kanoon_results, hst] at hok
          subst hok
          exact absurd h1 (List.not_mem_nil r1)
        · simp [fetch_indian_kanoon_results, hst] at hok
          subst hok
          obtain ⟨d, _, hd⟩ := List.mem_filterMap.mp h1
          exact ikExtract_link_http d r1 hd
  · cases env with
    | createFails msg => exact absurd h2 (by simp [fetch_canlii_search_results])
    | stepFails msg => exact absurd h2 (by simp [fetch_canlii_search_results])
    | success doc =>
        simp only [fetch_canlii_search_results] at h2
        obtain ⟨a, _, ha⟩ := List.mem_map.mp h2
        rw [← ha]
        exact canliiExtract_link_http a

/-- Witness for C5 (amended) on one relative-href record per source. -/
theorem C5_amended_absolute_links_witness :
    ((fetch_indian_kanoon_results "x" 1
          (HttpResult.resp 200 [{ anchor := some ("T", "/doc/1/"), sibling := none }])).fst
        = Except.ok [{ title := "T", link := "https://indiankanoon.org/doc/1/", details := "" }]
      ∧ ({ title := "T", link := "https://indiankanoon.org/doc/1/", details := "" } : ResultRec)
          ∈ [({ title := "T", link := "https://indiankanoon.org/doc/1/", details := "" } : ResultRec)]
      ∧ ({ title := "C", link := "https://www.canlii.org/en/ca/1", details := "" } : ResultRec)
          ∈ (fetch_canlii_search_results "x"
               (SeleniumOutcome.success [{ text := "C", href := "/en/ca/1" }])).fst)
  ∧ (strStartsWith ({ title := "T", link := "https://indiankanoon.org/doc/1/", details := "" } : ResultRec).link "http" = true
      ∧ strStartsWith ({ title := "C", link := "https://www.canlii.org/en/ca/1", details := "" } : ResultRec).link "http" = true) :=
  ⟨⟨rfl, List.mem_singleton.mpr rfl, List.mem_singleton.mpr rfl⟩,
   C5_amended_absolute_links "x" 1
     (HttpResult.resp 200 [{ anchor := some ("T", "/doc/1/"), sibling := none }])
     (SeleniumOutcome.success [{ text := "C", href := "/en/ca/1" }])
     [{ title := "T", link := "https://indiankanoon.org/doc/1/", details := "" }]
     { title := "T", link := "https://indiankanoon.org/doc/1/", details := "" }
     { title := "C", link := "https://www.canlii.org/en/ca/1", details := "" }
     rfl (List.mem_singleton.mpr rfl) (List.mem_singleton.mpr rfl)⟩

/-- Claim C6: in `fetch_canlii_search_results` and
`fetch_justia_search_results`, whenever a driver was created during the call
(`Effect.createDriver` in the trace), the `finally` block quits it before the
call returns (`Effect.driverQuit` in the trace), on the success path and on
every error path. -/
theorem C6_driver_always_quit (kw : String) (page : Int)
    (envC : SeleniumOutcome (List CanliiAnchor))
    (envJ : SeleniumOutcome (List JustiaAnchor)) :
    (Effect.createDriver ∈ (fetch_canlii_search_results kw envC).snd →
        Effect.driverQuit ∈ (fetch_canlii_search_results kw envC).snd)
  ∧ (Effect.createDriver ∈ (fetch_justia_search_results kw page envJ).snd →
        Effect.driverQuit ∈ (fetch_justia_search_results kw page envJ).snd) := by
  constructor
  · cases envC <;> intro hmem <;> simp [fetch_canlii_search_results] at hmem ⊢
  · cases envJ <;> intro hmem <;> simp [fetch_justia_search_results] at hmem ⊢

/-- Witness for C6: on failing automation steps (an error path), both
sessions created a driver and both traces record the quit. -/
theorem C6_driver_always_quit_witness :
    (Effect.createDriver ∈ (fetch_canlii_search_results "x"
          (SeleniumOutcome.stepFails "timeout")).snd
      ∧ Effect.createDriver ∈ (fetch_justia_search_results "x" 1
          (SeleniumOutcome.stepFails "timeout")).snd)
  ∧ (Effect.driverQuit ∈ (fetch_canlii_search_results "x"
          (SeleniumOutcome.stepFails "timeout")).snd
      ∧ Effect.driverQuit ∈ (fetch_justia_search_results "x" 1
          (SeleniumOutcome.stepFails "timeout")).snd) :=
  ⟨⟨by decide, by decide⟩,
   ⟨(C6_driver_always_quit "x" 1 (SeleniumOutcome.stepFails "timeout")
       (SeleniumOutcome.stepFails "timeout")).1 (by decide),
    (C6_driver_always_quit "x" 1 (SeleniumOutcome.stepFails "timeout")
       (SeleniumOutcome.stepFails "timeout")).2 (by decide)⟩⟩

/-- Counterexample to C7: of the four sources, the number queried by plain
HTTP GET requests is 2 (Indian Kanoon and AustLII), not 3. -/
theorem C7_counterexample :
    ¬ ((sourceSuccessTraces "contract law" 1 [] [] [] []).countP usesHttpGet = 3)
  ∧ (sourceSuccessTraces "contract law" 1 [] [] [] []).countP usesHttpGet = 2 := by
  refine ⟨by decide, by decide⟩

/-- Claim C7 (amended): exactly two of the four sources (Indian Kanoon,
AustLII) are queried by plain outbound HTTP GET requests with
source-specific keyword/offset parameters, and exactly two (CanLII,
Justia) are driven by headless browser-automation sessions; Justia's
session navigates to a parameterized GET-style search URL with a `start`
offset rather than driving a form. -/
theorem C7_amended_two_get_two_browser (kw : String) (page : Int)
    (d1 : List IKDiv) (d2 : List AustliiAnchor) (d3 : List CanliiAnchor)
    (d4 : List JustiaAnchor) :
    (sourceSuccessTraces kw page d1 d2 d3 d4).countP usesHttpGet = 2
  ∧ (sourceSuccessTraces kw page d1 d2 d3 d4).countP usesBrowserDriver = 2
  ∧ usesHttpGet (fetch_indian_kanoon_results kw page (HttpResult.resp 200 d1)).snd = true
  ∧ usesHttpGet (fetch_austlii_search_results kw (HttpResult.resp 200 d2)).snd = true
  ∧ usesBrowserDriver (fetch_canlii_search_results kw (SeleniumOutcome.success d3)).snd = true
  ∧ usesBrowserDriver (fetch_justia_search_results kw page (SeleniumOutcome.success d4)).snd = true
  ∧ justiaSearchUrl kw 2
      = "https://www.justia.com/search?q=" ++ kw
          ++ "&cx=012624009653992735869%3Acyxxdwappru&start=10" := by
  refine ⟨rfl, rfl, rfl, rfl, rfl, rfl, ?_⟩
  unfold justiaSearchUrl
  rw [String.append_assoc]
  congr 1

/-- Counterexample to C4: searching with every checkbox disabled stores `[]`
for each source and raises no error, but the render pass emits NO markdown
block at all — in particular the user does not see a "No results found"
message for the disabled sources (each source's display section is guarded
by its checkbox, p1.py lines 291, 306, 310, 314). -/
theorem C4_counterexample :
    ((searchAction false false false false "contract law" envQuiet initialState).fst).ik_results
        = []
  ∧ (searchAction false false false false "contract law" envQuiet initialState).snd = none
  ∧ (renderResults false false false false
        (searchAction false false false false "contract law" envQuiet initialState).fst).fst
        = [] := by
  refine ⟨rfl, rfl, rfl⟩

/-- Claim C4 (amended): for every search in which a source's checkbox is
disabled and the handler completes (always, unless an enabled Indian Kanoon
fetch raises — see C3), that source's stored result list is set to the
empty list and no error is raised; and the render pass emits exactly the
enabled sources' sections, so no output section — in particular no
"No results found" message — is rendered for a disabled source while its
checkbox is unchecked (such a message would appear only if the source were
re-enabled before the next search, since the formatters return
"No results found." on an empty list). -/
theorem C4_amended_disabled_source (ik al cl ju : Bool) (kw : String)
    (env : FetchEnv) (s s2 : AppState) (status : Nat) (dIK : List IKDiv) :
    ((searchAction false al cl ju kw env s).fst).ik_results = []
  ∧ (searchAction false al cl ju kw env s).snd = none
  ∧ ((searchAction false false cl ju kw env s).fst).austlii_results = []
  ∧ ((searchAction true false cl ju kw
        { env with ik := HttpResult.resp status dIK } s).fst).austlii_results = []
  ∧ (searchAction true false cl ju kw
        { env with ik := HttpResult.resp status dIK } s).snd = none
  ∧ ((searchAction false al false ju kw env s).fst).canlii_results = []
  ∧ ((searchAction true al false ju kw
        { env with ik := HttpResult.resp status dIK } s).fst).canlii_results = []
  ∧ ((searchAction false al cl false kw env s).fst).justia_results = []
  ∧ ((searchAction true al cl false kw
        { env with ik := HttpResult.resp status dIK } s).fst).justia_results = []
  ∧ (renderResults ik al cl ju s2).fst
      = (if s2.results_fetched then
           (if ik then
              [(format_indian_kanoon_results s2.ik_results s2.ik_page s2.ik_counts).fst,
               "---"]
            else [])
           ++ (if al then [format_results s2.austlii_results "AustLII", "---"] else [])
           ++ (if cl then [format_results s2.canlii_results "CanLII", "---"] else [])
           ++ (if ju then
                 ["### Justia Results",
                  (format_justia_results s2.justia_results s2.justia_page
                     s2.justia_counts).fst]
               else [])
         else [])
  ∧ (format_indian_kanoon_results [] 1 (some [])).fst = "No results found." := by
  refine ⟨?_, rfl, ?_, ?_, ?_, ?_, ?_, ?_, ?_, ?_, rfl⟩
  · cases ju <;> simp [searchAction, searchRest]
  · cases ju <;> simp [searchAction, searchRest]
  · by_cases h : status ≠ 200 <;> cases ju <;>
      simp [searchAction, fetch_indian_kanoon_results, h, searchRest]
  · by_cases h : status ≠ 200 <;> cases ju <;>
      simp [searchAction, fetch_indian_kanoon_results, h, searchRest]
  · cases ju <;> simp [searchAction, searchRest]
  · by_cases h : status ≠ 200 <;> cases ju <;>
      simp [searchAction, fetch_indian_kanoon_results, h, searchRest]
  · simp [searchAction, searchRest]
  · by_cases h : status ≠ 200 <;>
      simp [searchAction, fetch_indian_kanoon_results, h, searchRest]
  · cases hrf : s2.results_fetched <;> cases ik <;> cases al <;> cases cl <;> cases ju <;>
      simp [renderResults, hrf]

lemma searchRest_pagesInv (al cl ju : Bool) (kw : String) (env : FetchEnv)
    (s : AppState) (h : pagesInv s) : pagesInv (searchRest al cl ju kw env s).fst := by
  obtain ⟨h1, h2⟩ := h
  cases ju <;> simp [pagesInv, searchRest] <;> omega

lemma searchAction_pagesInv (ik al cl ju : Bool) (kw : String) (env : FetchEnv)
    (s : AppState) (h : pagesInv s) : pagesInv (searchAction ik al cl ju kw env s).fst := by
  obtain ⟨h1, h2⟩ := h
  cases ik with
  | false =>
      simp only [searchAction, Bool.false_eq_true, if_false]
      exact searchRest_pagesInv al cl ju kw env _ ⟨h1, h2⟩
  | true =>
      simp only [searchAction, if_true]
      rcases fetch_indian_kanoon_results kw 1 env.ik with ⟨res, tr⟩
      cases res with
      | error msg => exact ⟨le_refl 1, h2⟩
      | ok rs => exact searchRest_pagesInv al cl ju kw env _ ⟨le_refl 1, h2⟩

lemma step_pagesInv (s : AppState) (e : UiEvent) (h : pagesInv s) :
    pagesInv (step s e) := by
  obtain ⟨h1, h2⟩ := h
  cases e with
  | search ik al cl ju kw env => exact searchAction_pagesInv ik al cl ju kw env s ⟨h1, h2⟩
  | prevIK net =>
      simp only [step]
      by_cases hp : 1 < s.ik_page
      · rw [if_pos hp]
        rcases fetch_indian_kanoon_results s.keyword (s.ik_page - 1) net with ⟨res, tr⟩
        cases res <;> simp [pagesInv] <;> omega
      · rw [if_neg hp]
        exact ⟨h1, h2⟩
  | nextIK net =>
      simp only [step]
      rcases fetch_indian_kanoon_results s.keyword (s.ik_page + 1) net with ⟨res, tr⟩
      cases res <;> simp [pagesInv] <;> omega
  | prevJustia env =>
      simp only [step]
      by_cases hp : 1 < s.justia_page
      · rw [if_pos hp]
        simp [pagesInv]
        omega
      · rw [if_neg hp]
        exact ⟨h1, h2⟩
  | nextJustia env =>
      simp only [step]
      simp [pagesInv]
      omega

/-- Claim C8 (implicit invariant): in every session state reachable from the
initial state by any sequence of searches and pagination-button events, both
`ik_page` and `justia_page` are at least 1: they start at 1, are reset to 1
by a search, incremented by Next, and decremented by Previous only when
strictly greater than 1. -/
theorem C8_pages_at_least_one (evs : List UiEvent) :
    1 ≤ (evs.foldl step initialState).ik_page
  ∧ 1 ≤ (evs.foldl step initialState).justia_page := by
  have hfold : ∀ (l : List UiEvent) (s : AppState), pagesInv s → pagesInv (l.foldl step s) := by
    intro l
    induction l with
    | nil => intro s hs; exact hs
    | cons e l ih => intro s hs; exact ih _ (step_pagesInv s e hs)
  exact hfold evs initialState ⟨by decide, by decide⟩
